import Mathlib

/-!
Shallow embedding of `src/src/hal/src/queue/family.rs` (queue families,
raw and typed queue groups, and the `Queues` registry).

Conventions of the embedding:
* Rust `panic!`/`assert!` (fatal, unrecoverable failures) are modelled as
  the `.error` branch of `Except String`, carrying the exact message the
  Rust `assert!` macro would produce (`"assertion failed: <condition>"`).
* The registry `Queues(HashMap<QueueFamilyId, RawQueueGroup>)` is modelled
  extensionally as a function `QueueFamilyId → Option (RawQueueGroup Q)`;
  `HashMap::remove` removes the entry at the key and leaves the rest.
* Methods taking `&mut self` return the result paired with the new state.
* The backend's command-queue type `B::CommandQueue` is an opaque type
  parameter `Q`.
-/

/-- Modelled from the spec: `QueueType` (declared outside `family.rs`, in the
queue module root) is one of General, Graphics, Compute, Transfer. -/
inductive QueueType where
  | General
  | Graphics
  | Compute
  | Transfer
deriving DecidableEq, Repr

/-- Modelled from the spec: the `Graphics` capability tag's pure rule
`supported_by(queue_type) -> bool` (declared in `queue/capability.rs`, not in
`src/`). The spec's subset relation: a General queue type supports the
Graphics tag, a Graphics queue type supports it, and a queue type that does
not include graphics (Compute-only, Transfer-only) does not. -/
def Graphics.supported_by : QueueType → Bool
  | .General => true
  | .Graphics => true
  | _ => false

/-- Modelled from the spec: the `Compute` capability tag's pure rule
`supported_by(queue_type) -> bool` (declared in `queue/capability.rs`, not in
`src/`). A General or Compute queue type supports the Compute tag; a
Graphics-only or Transfer-only queue type does not (spec §8: `take::<Compute>`
on a Graphics-only family fails fatally). -/
def Compute.supported_by : QueueType → Bool
  | .General => true
  | .Compute => true
  | _ => false

/-- `QueueFamilyId(pub usize)`: identifier for a queue family. -/
structure QueueFamilyId where
  id : Nat
deriving DecidableEq, Repr

/-- The `QueueFamily` trait's data: `queue_type()` and `max_queues()`.
An implementor of the trait is modelled by the record of its two accessors. -/
structure QueueFamily where
  queue_type : QueueType
  max_queues : Nat
deriving DecidableEq, Repr

/-- `QueueFamily::supports_graphics` (default trait method):
`Graphics::supported_by(self.queue_type())`. -/
def QueueFamily.supports_graphics (f : QueueFamily) : Bool :=
  Graphics.supported_by f.queue_type

/-- `QueueFamily::supports_compute` (default trait method):
`Compute::supported_by(self.queue_type())`. -/
def QueueFamily.supports_compute (f : QueueFamily) : Bool :=
  Compute.supported_by f.queue_type

/-- `RawQueueGroup<B>`: a family descriptor plus the ordered vector of raw
command queues. -/
structure RawQueueGroup (Q : Type) where
  family : QueueFamily
  queues : List Q
deriving DecidableEq, Repr

/-- `RawQueueGroup::new(family)`: empty queue vector. -/
def RawQueueGroup.new {Q : Type} (family : QueueFamily) : RawQueueGroup Q :=
  { family := family, queues := [] }

/-- The message of `assert!(self.queues.len() < self.family.max_queues())`. -/
def addQueueAssertMsg : String :=
  "assertion failed: self.queues.len() < self.family.max_queues()"

/-- `RawQueueGroup::add_queue(queue)`:
`assert!(self.queues.len() < self.family.max_queues()); self.queues.push(queue)`.
The failed assertion (a panic) is the `.error` branch. -/
def RawQueueGroup.add_queue {Q : Type} (g : RawQueueGroup Q) (queue : Q) :
    Except String (RawQueueGroup Q) :=
  if g.queues.length < g.family.max_queues then
    .ok { g with queues := g.queues ++ [queue] }
  else
    .error addQueueAssertMsg

/-- Iterated `add_queue`, for stating the N-queues scenario. -/
def RawQueueGroup.add_queues {Q : Type} (g : RawQueueGroup Q) :
    List Q → Except String (RawQueueGroup Q)
  | [] => .ok g
  | q :: qs =>
      match g.add_queue q with
      | .ok g' => g'.add_queues qs
      | .error e => .error e

/-- `CommandQueue<B, C>(B::CommandQueue, PhantomData)` (declared in the queue
module root, not in `family.rs`): a newtype wrapping a raw command queue; the
capability tag `C` is phantom, so the wrapper carries only the raw handle. -/
structure CommandQueue (Q : Type) where
  raw : Q
deriving DecidableEq, Repr

/-- `QueueGroup<B, C>`: family id plus the strongly typed command queues. -/
structure QueueGroup (Q : Type) where
  family : QueueFamilyId
  queues : List (CommandQueue Q)
deriving DecidableEq, Repr

/-- The message of `assert!(C::supported_by(raw.family.queue_type()))`. -/
def queueGroupNewAssertMsg : String :=
  "assertion failed: C::supported_by(raw.family.queue_type())"

/-- `QueueGroup::<B, C>::new(id, raw)`:
`assert!(C::supported_by(raw.family.queue_type()))`, then wrap every raw queue
as `CommandQueue(q, PhantomData)` via `into_iter().map(..).collect()`.
The capability `C` is represented by its static rule `supported_by`.
The panic is the `.error` branch. -/
def QueueGroup.new {Q : Type} (supported_by : QueueType → Bool)
    (id : QueueFamilyId) (raw : RawQueueGroup Q) : Except String (QueueGroup Q) :=
  if supported_by raw.family.queue_type then
    .ok { family := id, queues := raw.queues.map (fun q => CommandQueue.mk q) }
  else
    .error queueGroupNewAssertMsg

/-- `Queues<B>(HashMap<QueueFamilyId, RawQueueGroup<B>>)`, modelled
extensionally: the map sends each id to its entry, if any. -/
structure Queues (Q : Type) where
  map : QueueFamilyId → Option (RawQueueGroup Q)

/-- `Queues::new(queues)`. -/
def Queues.new {Q : Type} (queues : QueueFamilyId → Option (RawQueueGroup Q)) :
    Queues Q :=
  ⟨queues⟩

/-- `HashMap::remove(&id)` applied to the registry: the state with the entry
at `id` gone, other entries untouched. -/
def Queues.erase {Q : Type} (s : Queues Q) (id : QueueFamilyId) : Queues Q :=
  ⟨fun k => if k = id then none else s.map k⟩

/-- `Queues::take::<C>(id)`:
`self.0.remove(&id).map(|group| QueueGroup::new(id, group))`.
`remove` mutates the registry first; `QueueGroup::new` may then panic, so the
result is `Except` of the option, paired with the post-state. On a panic the
post-state still has the entry removed (the `remove` already happened). -/
def Queues.take {Q : Type} (supported_by : QueueType → Bool) (s : Queues Q)
    (id : QueueFamilyId) : Except String (Option (QueueGroup Q)) × Queues Q :=
  (match s.map id with
   | none => .ok none
   | some group => (QueueGroup.new supported_by id group).map some,
   s.erase id)

/-- `Queues::take_raw(id)`:
`self.0.remove(&id).map(|group| group.queues)`. No panic path. -/
def Queues.take_raw {Q : Type} (s : Queues Q) (id : QueueFamilyId) :
    Option (List Q) × Queues Q :=
  ((s.map id).map (fun group => group.queues), s.erase id)

/-! ### Concrete fixtures (spec §8 scenario: a Graphics family with
`max_queues = 2` and two handles, registered at `FamilyId(0)`) -/

def sampleGraphicsFamily : QueueFamily := { queue_type := .Graphics, max_queues := 2 }

def sampleRawGroup : RawQueueGroup Nat := { family := sampleGraphicsFamily, queues := [10, 11] }

def sampleRegistry : Queues Nat :=
  Queues.new (fun k => if k = ⟨0⟩ then some sampleRawGroup else none)

def sampleComputeFamily : QueueFamily := { queue_type := .Compute, max_queues := 1 }

def sampleComputeRegistry : Queues Nat :=
  Queues.new (fun k => if k = ⟨1⟩ then some { family := sampleComputeFamily, queues := [20] } else none)

/-! ### Helper lemmas -/

/-- Whatever branch `take` runs, the post-state is the registry with the
entry at `id` removed. -/
theorem Queues.take_snd {Q : Type} (C : QueueType → Bool) (s : Queues Q)
    (id : QueueFamilyId) : (Queues.take C s id).2 = s.erase id := rfl

/-- The post-state of `take_raw` is the registry with the entry removed. -/
theorem Queues.take_raw_snd {Q : Type} (s : Queues Q) (id : QueueFamilyId) :
    (Queues.take_raw s id).2 = s.erase id := rfl

/-- The erased registry has no entry at the erased id. -/
theorem Queues.erase_map_self {Q : Type} (s : Queues Q) (id : QueueFamilyId) :
    (s.erase id).map id = none := by
  simp [Queues.erase]

/-- `take` on an absent id returns `.ok none`. -/
theorem Queues.take_absent {Q : Type} (C : QueueType → Bool) (s : Queues Q)
    (id : QueueFamilyId) (h : s.map id = none) :
    (Queues.take C s id).1 = .ok none := by
  unfold Queues.take
  rw [h]

/-- `take_raw` on an absent id returns `none`. -/
theorem Queues.take_raw_absent {Q : Type} (s : Queues Q) (id : QueueFamilyId)
    (h : s.map id = none) : (Queues.take_raw s id).1 = none := by
  unfold Queues.take_raw
  rw [h]
  rfl

/-- Adding a list of queues that fits under the capacity bound succeeds and
appends the list in order. -/
theorem RawQueueGroup.add_queues_ok {Q : Type} (hs : List Q) (g : RawQueueGroup Q)
    (h : g.queues.length + hs.length ≤ g.family.max_queues) :
    RawQueueGroup.add_queues g hs = .ok { g with queues := g.queues ++ hs } := by
  induction hs generalizing g with
  | nil => simp [RawQueueGroup.add_queues]
  | cons q qs ih =>
      have hlt : g.queues.length < g.family.max_queues := by
        simp at h
        omega
      have step : RawQueueGroup.add_queue g q = .ok { g with queues := g.queues ++ [q] } := by
        simp [RawQueueGroup.add_queue, hlt]
      have tail := ih { g with queues := g.queues ++ [q] }
        (by simp at h ⊢; omega)
      simp [RawQueueGroup.add_queues, step, tail]

/-! ### Claim theorems -/

/-- C1: for every registry entry present at `id` whose family's queue type
satisfies the capability `C`, `take<C>(id)` returns `Some` group whose queue
sequence is exactly the raw group's handle sequence, each handle wrapped as a
`CommandQueue`, in the same order and with the same length. -/
theorem take_converts_exactly {Q : Type} (C : QueueType → Bool) (s : Queues Q)
    (id : QueueFamilyId) (raw : RawQueueGroup Q)
    (hpresent : s.map id = some raw) (hcap : C raw.family.queue_type = true) :
    ∃ g : QueueGroup Q, (Queues.take C s id).1 = .ok (some g) ∧
      g.queues = raw.queues.map (fun q => CommandQueue.mk q) ∧
      g.queues.length = raw.queues.length := by
  refine ⟨⟨id, raw.queues.map (fun q => CommandQueue.mk q)⟩, ?_, rfl, by simp⟩
  simp [Queues.take, QueueGroup.new, hpresent, hcap, Except.map]

/-- C1 witness: the spec §8 scenario at a concrete registry. -/
theorem take_converts_exactly_witness :
    sampleRegistry.map ⟨0⟩ = some sampleRawGroup ∧
    Graphics.supported_by sampleRawGroup.family.queue_type = true ∧
    ∃ g : QueueGroup Nat,
      (Queues.take Graphics.supported_by sampleRegistry ⟨0⟩).1 = .ok (some g) ∧
      g.queues = sampleRawGroup.queues.map (fun q => CommandQueue.mk q) ∧
      g.queues.length = sampleRawGroup.queues.length :=
  ⟨rfl, rfl, take_converts_exactly Graphics.supported_by sampleRegistry ⟨0⟩ sampleRawGroup rfl rfl⟩

/-- C2: `take<C>(id)` fails fatally (panics) iff an entry is present at `id`
and its family's queue type does not satisfy `C`; on an absent id it returns
`.ok none` (absence, not an error), for every capability. -/
theorem take_panic_iff {Q : Type} (C : QueueType → Bool) (s : Queues Q)
    (id : QueueFamilyId) :
    ((∃ e, (Queues.take C s id).1 = .error e) ↔
      ∃ raw, s.map id = some raw ∧ C raw.family.queue_type = false) ∧
    (s.map id = none → (Queues.take C s id).1 = .ok none) := by
  constructor
  · cases h : s.map id with
    | none => simp [Queues.take, h]
    | some raw =>
        cases hc : C raw.family.queue_type <;>
          simp [Queues.take, QueueGroup.new, h, hc, Except.map]
  · intro h
    simp [Queues.take, h]

/-- C2 witness: `take::<Compute>` on a registry whose `FamilyId(0)` entry was
already consumed by `take::<Graphics>` returns absence without failing. -/
theorem take_panic_iff_witness :
    (Queues.take Compute.supported_by
      ((Queues.take Graphics.supported_by sampleRegistry ⟨0⟩).2) ⟨0⟩).1 = .ok none :=
  (take_panic_iff Compute.supported_by
    ((Queues.take Graphics.supported_by sampleRegistry ⟨0⟩).2) ⟨0⟩).2 rfl

/-- C3: the capacity invariant of `RawQueueGroup`. `new` starts empty;
`add_queue` appends when strictly below `max_queues` and panics at the bound;
the invariant `queues.len() ≤ max_queues` is preserved; for a family with
`max_queues = N`, adding exactly `N` queues to a fresh group succeeds (in
order) and an `(N+1)`-th addition panics. -/
theorem raw_group_capacity_invariant {Q : Type} (f : QueueFamily)
    (g : RawQueueGroup Q) (q : Q) (hs : List Q) (hN : hs.length = f.max_queues) :
    (RawQueueGroup.new (Q := Q) f).queues = [] ∧
    (g.queues.length < g.family.max_queues →
      g.add_queue q = .ok { g with queues := g.queues ++ [q] }) ∧
    (g.queues.length = g.family.max_queues →
      g.add_queue q = .error addQueueAssertMsg) ∧
    (∀ g', g.queues.length ≤ g.family.max_queues → g.add_queue q = .ok g' →
      g'.queues.length ≤ g'.family.max_queues) ∧
    RawQueueGroup.add_queues (RawQueueGroup.new f) hs =
      .ok { family := f, queues := hs } ∧
    (∀ g', RawQueueGroup.add_queues (RawQueueGroup.new f) hs = .ok g' →
      g'.add_queue q = .error addQueueAssertMsg) := by
  have hfill : RawQueueGroup.add_queues (RawQueueGroup.new (Q := Q) f) hs =
      .ok { family := f, queues := hs } := by
    have := RawQueueGroup.add_queues_ok hs (RawQueueGroup.new (Q := Q) f)
      (by simp [RawQueueGroup.new, hN])
    simpa [RawQueueGroup.new] using this
  refine ⟨rfl, ?_, ?_, ?_, hfill, ?_⟩
  · intro hlt
    simp [RawQueueGroup.add_queue, hlt]
  · intro heq
    simp [RawQueueGroup.add_queue, heq]
  · intro g' hle hok
    by_cases hlt : g.queues.length < g.family.max_queues
    · simp [RawQueueGroup.add_queue, hlt] at hok
      subst hok
      simpa using hlt
    · simp [RawQueueGroup.add_queue, hlt] at hok
  · intro g' hg'
    rw [hfill] at hg'
    cases hg'
    simp [RawQueueGroup.add_queue, hN]

/-- C3 witness: `max_queues = 2`, two queues fit, a third panics. -/
theorem raw_group_capacity_invariant_witness :
    RawQueueGroup.add_queues (RawQueueGroup.new sampleGraphicsFamily) [10, 11] =
      .ok { family := sampleGraphicsFamily, queues := [10, 11] } ∧
    RawQueueGroup.add_queue
      { family := sampleGraphicsFamily, queues := [10, 11] } (12 : Nat) =
      .error addQueueAssertMsg :=
  have h := raw_group_capacity_invariant sampleGraphicsFamily
    (RawQueueGroup.new sampleGraphicsFamily) (12 : Nat) [10, 11] rfl
  ⟨h.2.2.2.2.1, h.2.2.2.2.2 _ h.2.2.2.2.1⟩

/-- C4: `take<C>` and `take_raw` are destructive reads and mutually exclusive
per id: after either runs on `id`, the registry has no entry at `id` and every
subsequent extraction (`take<C'>` for any `C'`, or `take_raw`) at the same id
returns absence; whichever of the two runs first consumes the entry. -/
theorem take_destructive {Q : Type} (C C' : QueueType → Bool) (s : Queues Q)
    (id : QueueFamilyId) :
    ((Queues.take C s id).2).map id = none ∧
    ((Queues.take_raw s id).2).map id = none ∧
    (Queues.take C' (Queues.take C s id).2 id).1 = .ok none ∧
    (Queues.take_raw (Queues.take C s id).2 id).1 = none ∧
    (Queues.take C' (Queues.take_raw s id).2 id).1 = .ok none ∧
    (Queues.take_raw (Queues.take_raw s id).2 id).1 = none := by
  have h1 : ((Queues.take C s id).2).map id = none := by
    rw [Queues.take_snd]
    exact Queues.erase_map_self s id
  have h2 : ((Queues.take_raw s id).2).map id = none := by
    rw [Queues.take_raw_snd]
    exact Queues.erase_map_self s id
  exact ⟨h1, h2,
    Queues.take_absent C' _ id h1, Queues.take_raw_absent _ id h1,
    Queues.take_absent C' _ id h2, Queues.take_raw_absent _ id h2⟩

/-- C5: `take_raw(id)` returns exactly the stored raw group's handle sequence
(descriptor discarded) when an entry is present, absence when not; it has no
panic path at all, whatever the family's queue type. -/
theorem take_raw_exact {Q : Type} (s : Queues Q) (id : QueueFamilyId) :
    (∀ raw, s.map id = some raw → (Queues.take_raw s id).1 = some raw.queues) ∧
    (s.map id = none → (Queues.take_raw s id).1 = none) := by
  constructor
  · intro raw h
    simp [Queues.take_raw, h]
  · intro h
    simp [Queues.take_raw, h]

/-- C5 witness: both branches at a concrete registry. -/
theorem take_raw_exact_witness :
    (Queues.take_raw sampleRegistry ⟨0⟩).1 = some sampleRawGroup.queues ∧
    (Queues.take_raw sampleRegistry ⟨1⟩).1 = none :=
  ⟨(take_raw_exact sampleRegistry ⟨0⟩).1 sampleRawGroup rfl,
   (take_raw_exact sampleRegistry ⟨1⟩).2 rfl⟩

/-- C6: `supports_graphics` is exactly `Graphics::supported_by(queue_type())`
and `supports_compute` is exactly `Compute::supported_by(queue_type())`; a
General queue type makes both true, a Transfer-only queue type both false. -/
theorem supports_predicates (f : QueueFamily) :
    f.supports_graphics = Graphics.supported_by f.queue_type ∧
    f.supports_compute = Compute.supported_by f.queue_type ∧
    (f.queue_type = .General →
      f.supports_graphics = true ∧ f.supports_compute = true) ∧
    (f.queue_type = .Transfer →
      f.supports_graphics = false ∧ f.supports_compute = false) := by
  refine ⟨rfl, rfl, ?_, ?_⟩ <;> intro h <;>
    simp [QueueFamily.supports_graphics, QueueFamily.supports_compute, h,
      Graphics.supported_by, Compute.supported_by]

/-- C6 witness: a General family supports both, a Transfer family neither. -/
theorem supports_predicates_witness :
    QueueFamily.supports_graphics { queue_type := .General, max_queues := 1 } = true ∧
    QueueFamily.supports_compute { queue_type := .General, max_queues := 1 } = true ∧
    QueueFamily.supports_graphics { queue_type := .Transfer, max_queues := 1 } = false ∧
    QueueFamily.supports_compute { queue_type := .Transfer, max_queues := 1 } = false :=
  ⟨((supports_predicates { queue_type := .General, max_queues := 1 }).2.2.1 rfl).1,
   ((supports_predicates { queue_type := .General, max_queues := 1 }).2.2.1 rfl).2,
   ((supports_predicates { queue_type := .Transfer, max_queues := 1 }).2.2.2 rfl).1,
   ((supports_predicates { queue_type := .Transfer, max_queues := 1 }).2.2.2 rfl).2⟩

/-- C7 counterexample: the abort diagnostic does NOT identify the family id,
the actual queue type, or the requested capability. Two capability-mismatch
panics — different family ids (0 vs 1), different actual queue types
(Graphics vs Compute), different requested capabilities (Compute vs Graphics)
— carry the very same diagnostic string, so the diagnostic cannot identify
any of them. -/
theorem panic_diagnostic_counterexample :
    (Queues.take Compute.supported_by sampleRegistry ⟨0⟩).1 =
      .error queueGroupNewAssertMsg ∧
    (Queues.take Graphics.supported_by sampleComputeRegistry ⟨1⟩).1 =
      .error queueGroupNewAssertMsg ∧
    (⟨0⟩ : QueueFamilyId) ≠ ⟨1⟩ ∧
    sampleGraphicsFamily.queue_type ≠ sampleComputeFamily.queue_type :=
  ⟨rfl, rfl, by decide, by decide⟩

/-- C7 amended: on a fatal precondition violation the abort carries the
static `assert!` diagnostic quoting the violated condition — the capability
check expression for `take<C>`, the capacity bound expression for
`add_queue` — the same string for every family id, queue type and requested
capability, so it identifies the violated condition but not those values. -/
theorem panic_diagnostic_amended {Q : Type} (C : QueueType → Bool)
    (s : Queues Q) (id : QueueFamilyId) (raw : RawQueueGroup Q)
    (g : RawQueueGroup Q) (q : Q)
    (hpresent : s.map id = some raw) (hcap : C raw.family.queue_type = false)
    (hfull : g.family.max_queues ≤ g.queues.length) :
    (Queues.take C s id).1 = .error queueGroupNewAssertMsg ∧
    g.add_queue q = .error addQueueAssertMsg := by
  constructor
  · simp [Queues.take, QueueGroup.new, hpresent, hcap, Except.map]
  · simp [RawQueueGroup.add_queue, Nat.not_lt.mpr hfull]

/-- C7 amended witness: concrete capability-mismatch and capacity panics. -/
theorem panic_diagnostic_amended_witness :
    (Queues.take Compute.supported_by sampleRegistry ⟨0⟩).1 =
      .error queueGroupNewAssertMsg ∧
    RawQueueGroup.add_queue { family := sampleComputeFamily, queues := [20] } (21 : Nat) =
      .error addQueueAssertMsg :=
  panic_diagnostic_amended Compute.supported_by sampleRegistry ⟨0⟩
    sampleRawGroup { family := sampleComputeFamily, queues := [20] } (21 : Nat)
    rfl rfl (by decide)

/-- C8: `take<C>(id)` is not atomic on failure — `HashMap::remove` runs before
the capability assertion, so when `take<C>` panics on a capability mismatch
the entry is already gone; modelling the abort as a recoverable error, every
subsequent `take_raw(id)` or `take<C'>(id)` then returns absence. -/
theorem take_removes_before_check {Q : Type} (C C' : QueueType → Bool)
    (s : Queues Q) (id : QueueFamilyId) (e : String)
    (hpanic : (Queues.take C s id).1 = .error e) :
    ((Queues.take C s id).2).map id = none ∧
    (Queues.take_raw (Queues.take C s id).2 id).1 = none ∧
    (Queues.take C' (Queues.take C s id).2 id).1 = .ok none := by
  have h1 : ((Queues.take C s id).2).map id = none := by
    rw [Queues.take_snd]
    exact Queues.erase_map_self s id
  exact ⟨h1, Queues.take_raw_absent _ id h1, Queues.take_absent C' _ id h1⟩

/-- C8 witness: after `take::<Compute>` panics on the Graphics-only family at
`FamilyId(0)`, the entry is gone and both extractions observe absence. -/
theorem take_removes_before_check_witness :
    ((Queues.take Compute.supported_by sampleRegistry ⟨0⟩).2).map ⟨0⟩ = none ∧
    (Queues.take_raw (Queues.take Compute.supported_by sampleRegistry ⟨0⟩).2 ⟨0⟩).1 = none ∧
    (Queues.take Graphics.supported_by
      (Queues.take Compute.supported_by sampleRegistry ⟨0⟩).2 ⟨0⟩).1 = .ok none :=
  take_removes_before_check Compute.supported_by Graphics.supported_by
    sampleRegistry ⟨0⟩ queueGroupNewAssertMsg rfl

/-- C9: frame property — `take<C>(id)` and `take_raw(id)` leave the registry
unchanged at every other id, whether or not an entry at `id` was present. -/
theorem take_frame {Q : Type} (C : QueueType → Bool) (s : Queues Q)
    (id id' : QueueFamilyId) (h : id' ≠ id) :
    ((Queues.take C s id).2).map id' = s.map id' ∧
    ((Queues.take_raw s id).2).map id' = s.map id' := by
  rw [Queues.take_snd, Queues.take_raw_snd]
  constructor <;> simp [Queues.erase, h]

/-- C9 witness: extracting `FamilyId(0)` leaves the entry at `FamilyId(1)` of
a two-family registry untouched. -/
theorem take_frame_witness :
    ((Queues.take Graphics.supported_by sampleComputeRegistry ⟨0⟩).2).map ⟨1⟩ =
      sampleComputeRegistry.map ⟨1⟩ ∧
    ((Queues.take_raw sampleComputeRegistry ⟨0⟩).2).map ⟨1⟩ =
      sampleComputeRegistry.map ⟨1⟩ :=
  take_frame Graphics.supported_by sampleComputeRegistry ⟨0⟩ ⟨1⟩ (by decide)

/-- C10: whenever `take<C>(id)` returns a group, the group's family
identifier is the id that was passed in. -/
theorem take_returns_given_id {Q : Type} (C : QueueType → Bool) (s : Queues Q)
    (id : QueueFamilyId) (g : QueueGroup Q)
    (h : (Queues.take C s id).1 = .ok (some g)) : g.family = id := by
  unfold Queues.take at h
  cases hm : s.map id with
  | none =>
      rw [hm] at h
      simp at h
  | some raw =>
      rw [hm] at h
      unfold QueueGroup.new at h
      by_cases hc : C raw.family.queue_type
      · simp [hc, Except.map] at h
        rw [← h]
      · simp [hc, Except.map] at h

/-- C10 witness: the spec §8 scenario's returned group carries `FamilyId(0)`. -/
theorem take_returns_given_id_witness :
    QueueGroup.family
      { family := ⟨0⟩,
        queues := sampleRawGroup.queues.map (fun q => CommandQueue.mk q) } = ⟨0⟩ :=
  take_returns_given_id Graphics.supported_by sampleRegistry ⟨0⟩ _ rfl
